import Mathlib

/-!
Verification of the CwaWeather backend (`src/server.js`).

The file embeds the single request handler `getWeatherByCity` and the
forecast-normalization loop it contains.  JavaScript strings become `String`,
arrays become `List`, and the property accesses that can throw a `TypeError`
at runtime (`weatherElements[0].time` on an empty array, `element.time[i].parameter`
past the end of an array) become `Except String` with the corresponding
error message.  JSON response bodies are modelled by a small `Json` inductive.
-/

namespace CwaWeather

/-- The `parameter` object inside a time slot of the upstream payload. -/
structure Parameter where
  parameterName : String
  deriving DecidableEq

/-- One entry of a weather element's `time` array. -/
structure TimeSlot where
  startTime : String
  endTime : String
  parameter : Parameter
  deriving DecidableEq

/-- One entry of `locationData.weatherElement`. -/
structure WeatherElement where
  elementName : String
  time : List TimeSlot
  deriving DecidableEq

/-- The raw per-location forecast, `records.location[i]` in the upstream JSON. -/
structure RawLocationForecast where
  locationName : String
  weatherElement : List WeatherElement
  deriving DecidableEq

/-- The `records` object of the upstream response. -/
structure Records where
  datasetDescription : String
  location : List RawLocationForecast
  deriving DecidableEq

/-- One normalized forecast record, as built by the loop body of `server.js`. -/
structure ForecastPeriod where
  startTime : String
  endTime : String
  weather : String
  rain : String
  minTemp : String
  maxTemp : String
  comfort : String
  windSpeed : String
  deriving DecidableEq

/-- The `weatherData` object returned on success. -/
structure NormalizedForecast where
  city : String
  updateTime : String
  forecasts : List ForecastPeriod
  deriving DecidableEq

/-- JSON values, used for response bodies and for the upstream error body
(`error.response.data` can be an arbitrary JSON document). -/
inductive Json where
  | str (s : String)
  | boolean (b : Bool)
  | num (n : Int)
  | obj (fields : List (String × Json))
  | arr (items : List Json)

/-- Message of the `TypeError` thrown by `weatherElements[0].time` when
`weatherElement` is the empty array (`weatherElements[0]` is `undefined`). -/
def jsFirstElementError : String :=
  "Cannot read properties of undefined (reading \x27time\x27)"

/-- Message of the `TypeError` thrown by `element.time[i].parameter` when `i`
is past the end of `element.time` (`element.time[i]` is `undefined`). -/
def jsTimeSlotError : String :=
  "Cannot read properties of undefined (reading \x27parameter\x27)"

/-- The `switch (element.elementName)` statement: assign the slot's
`parameter.parameterName` to the field selected by the element name,
appending `%` for `PoP` and `°C` for `MinT`/`MaxT`; unrecognized names
fall through and leave the record unchanged. -/
def applyNamed (n : String) (v : String) (fc : ForecastPeriod) : ForecastPeriod :=
  if n = "Wx" then { fc with weather := v }
  else if n = "PoP" then { fc with rain := v ++ "%" }
  else if n = "MinT" then { fc with minTemp := v ++ "°C" }
  else if n = "MaxT" then { fc with maxTemp := v ++ "°C" }
  else if n = "CI" then { fc with comfort := v }
  else if n = "WS" then { fc with windSpeed := v }
  else fc

/-- Body of the `weatherElements.forEach` callback at time index `i`:
`const value = element.time[i].parameter` (a `TypeError` when `time[i]` is
`undefined`), then the `switch` on `element.elementName`. -/
def applyElement (i : Nat) (fc : ForecastPeriod) (e : WeatherElement) :
    Except String ForecastPeriod :=
  match e.time.get? i with
  | none => Except.error jsTimeSlotError
  | some slot => Except.ok (applyNamed e.elementName slot.parameter.parameterName fc)

/-- The fresh `forecast` object created at the top of each loop iteration:
`startTime`/`endTime` from the given slot of the first element, all six
weather fields initialized to the empty string. -/
def seedForecast (slot : TimeSlot) : ForecastPeriod :=
  { startTime := slot.startTime
    endTime := slot.endTime
    weather := ""
    rain := ""
    minTemp := ""
    maxTemp := ""
    comfort := ""
    windSpeed := "" }

/-- The normalization loop of `getWeatherByCity`:
`timeCount = weatherElements[0].time.length` (a `TypeError` when
`weatherElement` is empty), then for each `i < timeCount` seed a record from
`weatherElements[0].time[i]`, run the `forEach` over all elements, and push
the record, in index order. -/
def buildForecasts (elements : List WeatherElement) :
    Except String (List ForecastPeriod) :=
  match elements with
  | [] => Except.error jsFirstElementError
  | first :: rest =>
    (List.range first.time.length).mapM fun i =>
      match first.time.get? i with
      | none => Except.error jsTimeSlotError
      | some slot => (first :: rest).foldlM (applyElement i) (seedForecast slot)

/-- Construction of the `weatherData` object: `city` from
`locationData.locationName`, `updateTime` from `records.datasetDescription`,
`forecasts` from the normalization loop. -/
def normalizeForecast (datasetDescription : String)
    (locationData : RawLocationForecast) : Except String NormalizedForecast :=
  (buildForecasts locationData.weatherElement).map fun fs =>
    { city := locationData.locationName
      updateTime := datasetDescription
      forecasts := fs }

/-- Result of the awaited `axios.get` call: a parsed `records` object on
success, an error with an HTTP response (`error.response` present, carrying
`error.response.status` and `error.response.data`), or a transport-level
error carrying only `error.message`. -/
inductive UpstreamResult where
  | ok (records : Records)
  | httpError (status : Nat) (body : Json)
  | transportError (message : String)

/-- The `city.replace(/台/g, "臺")` preprocessing, guarded by `if (city)`
(a JavaScript string is falsy exactly when it is empty): every occurrence of
the character 台 is replaced by 臺, all other characters are kept. -/
def substituteCity (city : String) : String :=
  if city = "" then city
  else String.mk (city.data.map fun c => if c = '台' then '臺' else c)

/-- The 404 message built from the original request parameter:
`` `查無 '${req.params.city}' 資料，請確認縣市名稱是否正確。` ``. -/
def notFoundMessage (originalCity : String) : String :=
  "查無 \x27" ++ originalCity ++ "\x27 資料，請確認縣市名稱是否正確。"

/-- The four ways `getWeatherByCity` responds: the 200 success payload, the
404 no-data payload, the pass-through of an upstream HTTP error, and the
generic 500 error. -/
inductive HandlerResult where
  | success (data : NormalizedForecast)
  | noData (message : String)
  | upstreamError (status : Nat) (body : Json)
  | serverError (message : String)

/-- The handler `getWeatherByCity`: substitute 台→臺 in the city parameter,
call the upstream with the substituted name, 404 when `records.location[0]`
is `undefined`, otherwise normalize; an error with an upstream response is
passed through, any other error becomes a 500 with its message. -/
def getWeatherByCity (fetch : String → UpstreamResult) (reqCity : String) :
    HandlerResult :=
  match fetch (substituteCity reqCity) with
  | UpstreamResult.httpError status body => HandlerResult.upstreamError status body
  | UpstreamResult.transportError msg => HandlerResult.serverError msg
  | UpstreamResult.ok records =>
    match records.location.head? with
    | none => HandlerResult.noData (notFoundMessage reqCity)
    | some locationData =>
      match normalizeForecast records.datasetDescription locationData with
      | Except.error msg => HandlerResult.serverError msg
      | Except.ok data => HandlerResult.success data

/-- HTTP status code attached to each handler outcome
(`res.json` defaults to 200; `res.status(404)`, `res.status(error.response.status)`,
`res.status(500)` otherwise). -/
def resultStatus : HandlerResult → Nat
  | HandlerResult.success _ => 200
  | HandlerResult.noData _ => 404
  | HandlerResult.upstreamError status _ => status
  | HandlerResult.serverError _ => 500

/-- JSON serialization of one forecast record. -/
def jsonOfPeriod (fc : ForecastPeriod) : Json :=
  Json.obj
    [("startTime", Json.str fc.startTime)
    , ("endTime", Json.str fc.endTime)
    , ("weather", Json.str fc.weather)
    , ("rain", Json.str fc.rain)
    , ("minTemp", Json.str fc.minTemp)
    , ("maxTemp", Json.str fc.maxTemp)
    , ("comfort", Json.str fc.comfort)
    , ("windSpeed", Json.str fc.windSpeed)]

/-- JSON serialization of the `weatherData` object. -/
def jsonOfForecast (d : NormalizedForecast) : Json :=
  Json.obj
    [("city", Json.str d.city)
    , ("updateTime", Json.str d.updateTime)
    , ("forecasts", Json.arr (d.forecasts.map jsonOfPeriod))]

/-- Response body sent for each handler outcome:
`{success:true, data}`, `{success:false, message}`, `{error: error.response.data}`,
`{error: error.message}`. -/
def resultBody : HandlerResult → Json
  | HandlerResult.success d =>
    Json.obj [("success", Json.boolean true), ("data", jsonOfForecast d)]
  | HandlerResult.noData msg =>
    Json.obj [("success", Json.boolean false), ("message", Json.str msg)]
  | HandlerResult.upstreamError _ body => Json.obj [("error", body)]
  | HandlerResult.serverError msg => Json.obj [("error", Json.str msg)]

/-- The six element names the `switch` statement recognizes. -/
def recognizedNames : List String := ["Wx", "PoP", "MinT", "MaxT", "CI", "WS"]

/-- Unit suffix the `switch` appends for a given element name: `%` for `PoP`,
`°C` for `MinT` and `MaxT`, nothing otherwise. -/
def suffixOf (n : String) : String :=
  if n = "PoP" then "%"
  else if n = "MinT" then "°C"
  else if n = "MaxT" then "°C"
  else ""

/-- The output field of a forecast record written for a given element name. -/
def selectField (n : String) (fc : ForecastPeriod) : String :=
  if n = "Wx" then fc.weather
  else if n = "PoP" then fc.rain
  else if n = "MinT" then fc.minTemp
  else if n = "MaxT" then fc.maxTemp
  else if n = "CI" then fc.comfort
  else if n = "WS" then fc.windSpeed
  else ""

/-- The last element of the list carrying a given element name, if any. -/
def lastNamed (n : String) (es : List WeatherElement) : Option WeatherElement :=
  (es.filter fun e => e.elementName == n).getLast?

/-- Parameter value of an element at a time index (empty string out of range). -/
def paramAt (e : WeatherElement) (i : Nat) : String :=
  match e.time.get? i with
  | some slot => slot.parameter.parameterName
  | none => ""

/-- Expected value of the output field for element name `n` at time index `i`:
empty when no element carries the name, otherwise the parameter value of the
last element carrying it, with the name's unit suffix. -/
def fieldValue (n : String) (es : List WeatherElement) (i : Nat) : String :=
  match lastNamed n es with
  | none => ""
  | some e => paramAt e i ++ suffixOf n

/-- Total version of `applyElement`, used to describe the fold once every
element is known to have a slot at index `i`. -/
def applyElementTotal (i : Nat) (fc : ForecastPeriod) (e : WeatherElement) :
    ForecastPeriod :=
  match e.time.get? i with
  | none => fc
  | some slot => applyNamed e.elementName slot.parameter.parameterName fc

/-- Placeholder slot for the unreachable out-of-range branch of `periodAt`. -/
def fallbackSlot : TimeSlot :=
  { startTime := "", endTime := "", parameter := { parameterName := "" } }

/-- The record the loop produces at time index `i`. -/
def periodAt (elements : List WeatherElement) (first : WeatherElement)
    (i : Nat) : ForecastPeriod :=
  match first.time.get? i with
  | none => seedForecast fallbackSlot
  | some slot => elements.foldl (applyElementTotal i) (seedForecast slot)

lemma selectField_applyNamed_self (n : String) (hn : n ∈ recognizedNames)
    (v : String) (fc : ForecastPeriod) :
    selectField n (applyNamed n v fc) = v ++ suffixOf n := by
  fin_cases hn <;> simp [selectField, applyNamed, suffixOf]

lemma selectField_applyNamed_other (n m : String) (hn : n ∈ recognizedNames)
    (hne : m ≠ n) (v : String) (fc : ForecastPeriod) :
    selectField n (applyNamed m v fc) = selectField n fc := by
  fin_cases hn <;> (unfold applyNamed ; split_ifs <;> simp_all [selectField])

lemma startTime_applyNamed (n v : String) (fc : ForecastPeriod) :
    (applyNamed n v fc).startTime = fc.startTime := by
  unfold applyNamed ; split_ifs <;> rfl

lemma endTime_applyNamed (n v : String) (fc : ForecastPeriod) :
    (applyNamed n v fc).endTime = fc.endTime := by
  unfold applyNamed ; split_ifs <;> rfl

lemma selectField_seedForecast (n : String) (hn : n ∈ recognizedNames)
    (slot : TimeSlot) : selectField n (seedForecast slot) = "" := by
  fin_cases hn <;> simp [selectField, seedForecast]

lemma startTime_applyElementTotal (i : Nat) (fc : ForecastPeriod)
    (e : WeatherElement) : (applyElementTotal i fc e).startTime = fc.startTime := by
  unfold applyElementTotal
  cases e.time.get? i with
  | none => rfl
  | some slot => exact startTime_applyNamed _ _ _

lemma endTime_applyElementTotal (i : Nat) (fc : ForecastPeriod)
    (e : WeatherElement) : (applyElementTotal i fc e).endTime = fc.endTime := by
  unfold applyElementTotal
  cases e.time.get? i with
  | none => rfl
  | some slot => exact endTime_applyNamed _ _ _

lemma startTime_foldl (i : Nat) :
    ∀ (es : List WeatherElement) (fc : ForecastPeriod),
    (es.foldl (applyElementTotal i) fc).startTime = fc.startTime := by
  intro es
  induction es with
  | nil => intro fc; rfl
  | cons e es ih =>
    intro fc
    rw [List.foldl_cons, ih, startTime_applyElementTotal]

lemma endTime_foldl (i : Nat) :
    ∀ (es : List WeatherElement) (fc : ForecastPeriod),
    (es.foldl (applyElementTotal i) fc).endTime = fc.endTime := by
  intro es
  induction es with
  | nil => intro fc; rfl
  | cons e es ih =>
    intro fc
    rw [List.foldl_cons, ih, endTime_applyElementTotal]

lemma selectField_foldl (n : String) (hn : n ∈ recognizedNames) (i : Nat)
    (es : List WeatherElement) :
    ∀ fc : ForecastPeriod, (∀ e ∈ es, i < e.time.length) →
    selectField n (es.foldl (applyElementTotal i) fc) =
      (match lastNamed n es with
       | none => selectField n fc
       | some e => paramAt e i ++ suffixOf n) := by
  induction es using List.reverseRecOn with
  | nil => intro fc _; simp [lastNamed]
  | append_singleton es e ih =>
    intro fc h
    have he : i < e.time.length := h e (by simp)
    have hslot : e.time.get? i = some (e.time.get ⟨i, he⟩) := List.get?_eq_get he
    rw [List.foldl_append, List.foldl_cons, List.foldl_nil]
    by_cases hname : e.elementName = n
    · have hlast : lastNamed n (es ++ [e]) = some e := by
        simp [lastNamed, List.filter_append, hname]
      have hL : selectField n
          (applyElementTotal i (es.foldl (applyElementTotal i) fc) e) =
          paramAt e i ++ suffixOf n := by
        unfold applyElementTotal
        rw [hslot, hname, selectField_applyNamed_self n hn]
        unfold paramAt
        rw [hslot]
      rw [hlast]
      exact hL
    · have hlast : lastNamed n (es ++ [e]) = lastNamed n es := by
        simp [lastNamed, List.filter_append, hname]
      rw [hlast]
      show selectField n (applyElementTotal i _ e) = _
      unfold applyElementTotal
      rw [hslot, selectField_applyNamed_other n _ hn hname]
      exact ih fc (fun x hx => h x (by simp [hx]))

lemma applyElement_ok (i : Nat) (fc : ForecastPeriod) (e : WeatherElement)
    (h : i < e.time.length) :
    applyElement i fc e = Except.ok (applyElementTotal i fc e) := by
  unfold applyElement applyElementTotal
  rw [List.get?_eq_get h]

lemma foldlM_ok (i : Nat) (es : List WeatherElement) :
    ∀ fc : ForecastPeriod, (∀ e ∈ es, i < e.time.length) →
    es.foldlM (applyElement i) fc =
      Except.ok (es.foldl (applyElementTotal i) fc) := by
  induction es with
  | nil => intro fc _; rfl
  | cons e es ih =>
    intro fc h
    rw [List.foldlM_cons, applyElement_ok i fc e (h e (by simp)), List.foldl_cons]
    show es.foldlM (applyElement i) _ = _
    exact ih _ (fun x hx => h x (by simp [hx]))

lemma mapM_ok_of_forall {α β : Type} (g : α → Except String β) (f : α → β)
    (l : List α) : (∀ a ∈ l, g a = Except.ok (f a)) →
    l.mapM g = Except.ok (l.map f) := by
  induction l with
  | nil => intro _; rfl
  | cons a l ih =>
    intro h
    rw [List.mapM_cons, h a (by simp), ih (fun b hb => h b (by simp [hb]))]
    rfl

lemma buildForecasts_eq_map (first : WeatherElement)
    (rest : List WeatherElement)
    (hlen : ∀ e ∈ first :: rest, first.time.length ≤ e.time.length) :
    buildForecasts (first :: rest) =
      Except.ok ((List.range first.time.length).map
        (periodAt (first :: rest) first)) := by
  unfold buildForecasts
  apply mapM_ok_of_forall
  intro i hi
  have hi' : i < first.time.length := List.mem_range.mp hi
  have hslot : first.time.get? i = some (first.time.get ⟨i, hi'⟩) :=
    List.get?_eq_get hi'
  unfold periodAt
  rw [hslot]
  exact foldlM_ok i (first :: rest) _
    (fun e he => Nat.lt_of_lt_of_le hi' (hlen e he))

lemma selectField_periodAt (n : String) (hn : n ∈ recognizedNames)
    (first : WeatherElement) (rest : List WeatherElement) (i : Nat)
    (hi : i < first.time.length)
    (h : ∀ e ∈ first :: rest, i < e.time.length) :
    selectField n (periodAt (first :: rest) first i) =
      fieldValue n (first :: rest) i := by
  unfold periodAt
  rw [List.get?_eq_get hi, selectField_foldl n hn i _ _ h]
  unfold fieldValue
  cases lastNamed n (first :: rest) with
  | none => exact selectField_seedForecast n hn _
  | some e => rfl

lemma startTime_periodAt (first : WeatherElement) (rest : List WeatherElement)
    (i : Nat) (hi : i < first.time.length) :
    (periodAt (first :: rest) first i).startTime =
      (first.time.get ⟨i, hi⟩).startTime := by
  unfold periodAt
  rw [List.get?_eq_get hi, startTime_foldl]
  rfl

lemma endTime_periodAt (first : WeatherElement) (rest : List WeatherElement)
    (i : Nat) (hi : i < first.time.length) :
    (periodAt (first :: rest) first i).endTime =
      (first.time.get ⟨i, hi⟩).endTime := by
  unfold periodAt
  rw [List.get?_eq_get hi, endTime_foldl]
  rfl

lemma string_data_append (s t : String) : (s ++ t).data = s.data ++ t.data := by
  cases s
  cases t
  rfl

/-- Sample time slot with a `Wx` parameter, as in the README scenario. -/
def slotSunny : TimeSlot :=
  { startTime := "2026-10-11 06:00:00"
    endTime := "2026-10-11 18:00:00"
    parameter := { parameterName := "Sunny" } }

/-- Sample time slot with a `PoP` parameter. -/
def slotTen : TimeSlot :=
  { startTime := "2026-10-11 06:00:00"
    endTime := "2026-10-11 18:00:00"
    parameter := { parameterName := "10" } }

/-- Sample time slot with a second `Wx` parameter. -/
def slotCloudy : TimeSlot :=
  { startTime := "2026-10-11 06:00:00"
    endTime := "2026-10-11 18:00:00"
    parameter := { parameterName := "Cloudy" } }

/-- Sample `Wx` element with one time slot. -/
def wxElement : WeatherElement := { elementName := "Wx", time := [slotSunny] }

/-- Sample `PoP` element with one time slot. -/
def popElement : WeatherElement := { elementName := "PoP", time := [slotTen] }

/-- A second sample `Wx` element, used for the duplicate-name claim. -/
def wxElementLater : WeatherElement :=
  { elementName := "Wx", time := [slotCloudy] }

/-- Sample location payload. -/
def sampleRaw : RawLocationForecast :=
  { locationName := "臺北市", weatherElement := [wxElement, popElement] }

/-- C1: for every valid input whose first weather element has `N` time slots,
the normalizer succeeds with exactly `N` records, and in each record the field
of every recognized element name carries the mapped value of the (last)
element with that name — `Wx`→`weather`, `PoP`→`rain`+`%`, `MinT`→`minTemp`+`°C`,
`MaxT`→`maxTemp`+`°C`, `CI`→`comfort`, `WS`→`windSpeed` — and the empty string
when no element carries the name; unrecognized names are ignored without
error. -/
theorem normalizer_field_population (first : WeatherElement)
    (rest : List WeatherElement)
    (hlen : ∀ e ∈ first :: rest, e.time.length = first.time.length) :
    ∃ fs, buildForecasts (first :: rest) = Except.ok fs ∧
      fs.length = first.time.length ∧
      ∀ i, (hi : i < fs.length) → ∀ n ∈ recognizedNames,
        selectField n fs[i] = fieldValue n (first :: rest) i := by
  have hle : ∀ e ∈ first :: rest, first.time.length ≤ e.time.length :=
    fun e he => Nat.le_of_eq (hlen e he).symm
  refine ⟨_, buildForecasts_eq_map first rest hle, by simp, ?_⟩
  intro i hi n hn
  have hi' : i < first.time.length := by simpa using hi
  rw [List.getElem_map, List.getElem_range]
  exact selectField_periodAt n hn first rest i hi'
    (fun e he => Nat.lt_of_lt_of_le hi' (hle e he))

/-- Witness for C1 at the README scenario input: a one-slot `Wx` element and
a one-slot `PoP` element. -/
theorem normalizer_field_population_witness :
    ∃ fs, buildForecasts (wxElement :: [popElement]) = Except.ok fs ∧
      fs.length = wxElement.time.length ∧
      ∀ i, (hi : i < fs.length) → ∀ n ∈ recognizedNames,
        selectField n fs[i] = fieldValue n (wxElement :: [popElement]) i :=
  normalizer_field_population wxElement [popElement] (by decide)

/-- C6: the `i`-th output record takes `startTime` and `endTime` from the
first weather element's `i`-th time slot, and records are emitted in index
order (the record at output position `i` is the one built from slot `i`). -/
theorem forecasts_take_times_from_first_element (first : WeatherElement)
    (rest : List WeatherElement)
    (hlen : ∀ e ∈ first :: rest, e.time.length = first.time.length) :
    ∃ fs, buildForecasts (first :: rest) = Except.ok fs ∧
      fs.length = first.time.length ∧
      ∀ i, (hi : i < fs.length) → ∃ hi' : i < first.time.length,
        fs[i].startTime = (first.time.get ⟨i, hi'⟩).startTime ∧
        fs[i].endTime = (first.time.get ⟨i, hi'⟩).endTime := by
  have hle : ∀ e ∈ first :: rest, first.time.length ≤ e.time.length :=
    fun e he => Nat.le_of_eq (hlen e he).symm
  refine ⟨_, buildForecasts_eq_map first rest hle, by simp, ?_⟩
  intro i hi
  have hi' : i < first.time.length := by simpa using hi
  refine ⟨hi', ?_, ?_⟩
  · rw [List.getElem_map, List.getElem_range]
    exact startTime_periodAt first rest i hi'
  · rw [List.getElem_map, List.getElem_range]
    exact endTime_periodAt first rest i hi'

/-- Witness for C6 at the README scenario input. -/
theorem forecasts_take_times_from_first_element_witness :
    ∃ fs, buildForecasts (wxElement :: [popElement]) = Except.ok fs ∧
      fs.length = wxElement.time.length ∧
      ∀ i, (hi : i < fs.length) → ∃ hi' : i < wxElement.time.length,
        fs[i].startTime = (wxElement.time.get ⟨i, hi'⟩).startTime ∧
        fs[i].endTime = (wxElement.time.get ⟨i, hi'⟩).endTime :=
  forecasts_take_times_from_first_element wxElement [popElement] (by decide)

/-- C9: the normalizer is deterministic and idempotent in effect — two runs
on the same input produce structurally identical outputs. -/
theorem normalizer_deterministic (d₁ d₂ : String)
    (raw₁ raw₂ : RawLocationForecast) (hd : d₁ = d₂) (hraw : raw₁ = raw₂) :
    normalizeForecast d₁ raw₁ = normalizeForecast d₂ raw₂ := by
  rw [hd, hraw]

/-- Witness for C9 at the sample payload. -/
theorem normalizer_deterministic_witness :
    normalizeForecast "description" sampleRaw =
      normalizeForecast "description" sampleRaw :=
  normalizer_deterministic "description" "description" sampleRaw sampleRaw
    rfl rfl

/-- C10: when two or more elements share a recognized element name, the
output field for that name holds the value of the last such element in the
sequence — later assignments overwrite earlier ones. -/
theorem duplicate_names_last_assignment_wins (first : WeatherElement)
    (rest : List WeatherElement) (n : String) (hn : n ∈ recognizedNames)
    (hlen : ∀ e ∈ first :: rest, e.time.length = first.time.length)
    (hdup : 2 ≤ ((first :: rest).filter fun e => e.elementName == n).length)
    (e : WeatherElement) (hlast : lastNamed n (first :: rest) = some e) :
    ∃ fs, buildForecasts (first :: rest) = Except.ok fs ∧
      ∀ i, (hi : i < fs.length) →
        selectField n fs[i] = paramAt e i ++ suffixOf n := by
  have hle : ∀ e ∈ first :: rest, first.time.length ≤ e.time.length :=
    fun x hx => Nat.le_of_eq (hlen x hx).symm
  refine ⟨_, buildForecasts_eq_map first rest hle, ?_⟩
  intro i hi
  have hi' : i < first.time.length := by simpa using hi
  rw [List.getElem_map, List.getElem_range,
    selectField_periodAt n hn first rest i hi'
      (fun x hx => Nat.lt_of_lt_of_le hi' (hle x hx))]
  unfold fieldValue
  rw [hlast]

/-- Witness for C10: two `Wx` elements; the later one (value `Cloudy`) wins. -/
theorem duplicate_names_last_assignment_wins_witness :
    ∃ fs, buildForecasts (wxElement :: [wxElementLater]) = Except.ok fs ∧
      ∀ i, (hi : i < fs.length) →
        selectField "Wx" fs[i] = paramAt wxElementLater i ++ suffixOf "Wx" :=
  duplicate_names_last_assignment_wins wxElement [wxElementLater] "Wx"
    (by decide) (by decide) (by decide) wxElementLater (by decide)

/-- A `Wx` element with two time slots, for the length-mismatch scenario. -/
def wxTwoSlots : WeatherElement :=
  { elementName := "Wx", time := [slotSunny, slotCloudy] }

/-- C3 counterexample: with a first element of two slots and a second element
of one slot (a length mismatch the claim covers), the normalizer does not
silently produce output — the slot lookup fails and the run raises an error. -/
theorem shorter_element_raises_error :
    popElement.time.length ≠ wxTwoSlots.time.length ∧
    buildForecasts [wxTwoSlots, popElement] = Except.error jsTimeSlotError := by
  constructor
  · decide
  · rfl

/-- C3 amended: when every non-first element's time sequence is at least as
long as the first's, the normalizer performs no validation of lengths or
time-slot ordering and silently produces output — one record per slot of the
first element, each field read positionally from each element's own `i`-th
slot; only a non-first element strictly shorter than the first makes the
lookup fail with an error. -/
theorem no_validation_of_time_sequences (first : WeatherElement)
    (rest : List WeatherElement)
    (hle : ∀ e ∈ first :: rest, first.time.length ≤ e.time.length) :
    ∃ fs, buildForecasts (first :: rest) = Except.ok fs ∧
      fs.length = first.time.length ∧
      ∀ i, (hi : i < fs.length) → ∀ n ∈ recognizedNames,
        selectField n fs[i] = fieldValue n (first :: rest) i := by
  refine ⟨_, buildForecasts_eq_map first rest hle, by simp, ?_⟩
  intro i hi n hn
  have hi' : i < first.time.length := by simpa using hi
  rw [List.getElem_map, List.getElem_range]
  exact selectField_periodAt n hn first rest i hi'
    (fun e he => Nat.lt_of_lt_of_le hi' (hle e he))

/-- A `PoP` element with two time slots whose times disagree with the first
element's slots, for the misalignment witness. -/
def popTwoSlotsMisaligned : WeatherElement :=
  { elementName := "PoP"
    time :=
      [{ startTime := "2026-10-12 06:00:00"
         endTime := "2026-10-12 18:00:00"
         parameter := { parameterName := "30" } }
      , { startTime := "2026-10-13 06:00:00"
          endTime := "2026-10-13 18:00:00"
          parameter := { parameterName := "40" } }] }

/-- Witness for the amended C3: a two-slot first element together with a
two-slot second element whose time stamps do not match still normalizes
without error. -/
theorem no_validation_of_time_sequences_witness :
    ∃ fs, buildForecasts (wxTwoSlots :: [popTwoSlotsMisaligned]) =
        Except.ok fs ∧
      fs.length = wxTwoSlots.time.length ∧
      ∀ i, (hi : i < fs.length) → ∀ n ∈ recognizedNames,
        selectField n fs[i] =
          fieldValue n (wxTwoSlots :: [popTwoSlotsMisaligned]) i :=
  no_validation_of_time_sequences wxTwoSlots [popTwoSlotsMisaligned]
    (by decide)

/-- A sample upstream error body, as sent by the upstream for an invalid
API key. -/
def invalidKeyBody : Json :=
  Json.obj [("success", Json.str "false"), ("result", Json.str "invalid key")]

/-- An upstream that always answers 401 with `invalidKeyBody`. -/
def fetch401 : String → UpstreamResult :=
  fun _ => UpstreamResult.httpError 401 invalidKeyBody

/-- C2 counterexample: for an upstream 401, the handler keeps the status but
responds with `\x7berror: <upstream body>\x7d`, not with the upstream body
itself — the body is not passed through verbatim as the response body. -/
theorem upstream_error_body_is_wrapped :
    resultStatus (getWeatherByCity fetch401 "臺北市") = 401 ∧
    resultBody (getWeatherByCity fetch401 "臺北市") ≠ invalidKeyBody := by
  constructor
  · rfl
  · intro h
    rw [show resultBody (getWeatherByCity fetch401 "臺北市") =
      Json.obj [("error", invalidKeyBody)] from rfl] at h
    simp [invalidKeyBody] at h

/-- C2 amended: for every upstream HTTP error response, the handler responds
with the upstream's status code unchanged and with a JSON object holding the
upstream's error body verbatim under the `error` key. -/
theorem upstream_error_passthrough (fetch : String → UpstreamResult)
    (city : String) (status : Nat) (body : Json)
    (h : fetch (substituteCity city) = UpstreamResult.httpError status body) :
    resultStatus (getWeatherByCity fetch city) = status ∧
    resultBody (getWeatherByCity fetch city) = Json.obj [("error", body)] := by
  unfold getWeatherByCity
  rw [h]
  exact ⟨rfl, rfl⟩

/-- Witness for the amended C2 at the constant 401 upstream. -/
theorem upstream_error_passthrough_witness :
    resultStatus (getWeatherByCity fetch401 "台北市") = 401 ∧
    resultBody (getWeatherByCity fetch401 "台北市") =
      Json.obj [("error", invalidKeyBody)] :=
  upstream_error_passthrough fetch401 "台北市" 401 invalidKeyBody rfl

/-- C4: the handler's outbound call only sees the substituted city name; the
substitution is a replace-all over the whole string of exactly one character
pair — it preserves the length, and the character at every position is 臺
where the input has 台 and the input's own character everywhere else — so
every occurrence of 台 becomes 臺, no 台 remains, and a name without 台
passes through unchanged. -/
theorem city_glyph_substitution (c : String) :
    (∀ f₁ f₂ : String → UpstreamResult,
        f₁ (substituteCity c) = f₂ (substituteCity c) →
        getWeatherByCity f₁ c = getWeatherByCity f₂ c) ∧
    (substituteCity c).data.length = c.data.length ∧
    (∀ i, ∀ hi : i < c.data.length,
        ∀ hi' : i < (substituteCity c).data.length,
        (substituteCity c).data.get ⟨i, hi'⟩ =
          if c.data.get ⟨i, hi⟩ = '台' then '臺' else c.data.get ⟨i, hi⟩) ∧
    '台' ∉ (substituteCity c).data ∧
    ('台' ∉ c.data → substituteCity c = c) := by
  have hdata : (substituteCity c).data =
      c.data.map fun ch => if ch = '台' then '臺' else ch := by
    unfold substituteCity
    split_ifs with h
    · rw [h]
      rfl
    · rfl
  refine ⟨?_, ?_, ?_, ?_, ?_⟩
  · intro f₁ f₂ h
    unfold getWeatherByCity
    rw [h]
  · rw [hdata, List.length_map]
  · intro i hi hi'
    simp only [hdata, List.get_eq_getElem, List.getElem_map]
  · intro hm
    rw [hdata] at hm
    obtain ⟨a, _, hEq⟩ := List.mem_map.mp hm
    by_cases hc : a = '台'
    · rw [if_pos hc] at hEq
      exact absurd hEq (by decide)
    · rw [if_neg hc] at hEq
      exact hc hEq
  · intro hno
    unfold substituteCity
    split_ifs with h
    · rfl
    · have : ∀ l : List Char, '台' ∉ l →
          l.map (fun ch => if ch = '台' then '臺' else ch) = l := by
        intro l
        induction l with
        | nil => intro _; rfl
        | cons a l ih =>
          intro hx
          simp only [List.mem_cons, not_or] at hx
          rw [List.map_cons, if_neg (Ne.symm hx.1), ih hx.2]
      rw [this c.data hno]

/-- Witness for C4 at a name containing 台 (first conjunct instantiated with
equal constant upstreams). -/
theorem city_glyph_substitution_witness :
    (∀ f₁ f₂ : String → UpstreamResult,
        f₁ (substituteCity "台北市") = f₂ (substituteCity "台北市") →
        getWeatherByCity f₁ "台北市" = getWeatherByCity f₂ "台北市") ∧
    (substituteCity "台北市").data.length = ("台北市" : String).data.length ∧
    (∀ i, ∀ hi : i < ("台北市" : String).data.length,
        ∀ hi' : i < (substituteCity "台北市").data.length,
        (substituteCity "台北市").data.get ⟨i, hi'⟩ =
          if ("台北市" : String).data.get ⟨i, hi⟩ = '台' then '臺'
          else ("台北市" : String).data.get ⟨i, hi⟩) ∧
    '台' ∉ (substituteCity "台北市").data ∧
    ('台' ∉ ("台北市" : String).data → substituteCity "台北市" = "台北市") :=
  city_glyph_substitution "台北市"

/-- C5: an upstream response with an empty `location` array makes the handler
answer 404 with `success:false` and a message that contains the requested
city name exactly as given, before the 台→臺 substitution. -/
theorem empty_location_returns_404 (fetch : String → UpstreamResult)
    (city : String) (records : Records)
    (hfetch : fetch (substituteCity city) = UpstreamResult.ok records)
    (hempty : records.location = []) :
    getWeatherByCity fetch city =
      HandlerResult.noData (notFoundMessage city) ∧
    resultStatus (getWeatherByCity fetch city) = 404 ∧
    ∃ pre post, (notFoundMessage city).data = pre ++ city.data ++ post := by
  have hmain : getWeatherByCity fetch city =
      HandlerResult.noData (notFoundMessage city) := by
    simp only [getWeatherByCity, hfetch, hempty, List.head?_nil]
  refine ⟨hmain, by rw [hmain] ; rfl, ?_⟩
  refine ⟨("查無 \x27" : String).data,
    ("\x27 資料，請確認縣市名稱是否正確。" : String).data, ?_⟩
  unfold notFoundMessage
  rw [string_data_append, string_data_append]

/-- An upstream answering with no matching location. -/
def emptyLocationRecords : Records :=
  { datasetDescription := "三十六小時天氣預報", location := [] }

/-- Constant upstream returning `emptyLocationRecords`. -/
def fetchEmptyLocation : String → UpstreamResult :=
  fun _ => UpstreamResult.ok emptyLocationRecords

/-- Witness for C5 at the empty-location upstream and the pre-substitution
name 台北市. -/
theorem empty_location_returns_404_witness :
    getWeatherByCity fetchEmptyLocation "台北市" =
      HandlerResult.noData (notFoundMessage "台北市") ∧
    resultStatus (getWeatherByCity fetchEmptyLocation "台北市") = 404 ∧
    ∃ pre post, (notFoundMessage "台北市").data =
      pre ++ ("台北市" : String).data ++ post :=
  empty_location_returns_404 fetchEmptyLocation "台北市"
    emptyLocationRecords rfl rfl

/-- C7: a matched location with an empty `weatherElement` array makes the
normalizer fail with the lookup error, which the handler reports as a 500
carrying that failure's message — it does not return a defaulted forecast. -/
theorem empty_elements_propagates_500 (fetch : String → UpstreamResult)
    (city : String) (records : Records) (loc : RawLocationForecast)
    (hfetch : fetch (substituteCity city) = UpstreamResult.ok records)
    (hloc : records.location.head? = some loc)
    (helem : loc.weatherElement = []) :
    getWeatherByCity fetch city =
      HandlerResult.serverError jsFirstElementError ∧
    resultStatus (getWeatherByCity fetch city) = 500 := by
  have hnorm : normalizeForecast records.datasetDescription loc =
      Except.error jsFirstElementError := by
    unfold normalizeForecast buildForecasts
    rw [helem]
    rfl
  have hmain : getWeatherByCity fetch city =
      HandlerResult.serverError jsFirstElementError := by
    simp only [getWeatherByCity, hfetch, hloc, hnorm]
  exact ⟨hmain, by rw [hmain] ; rfl⟩

/-- A location record with no weather elements. -/
def noElementsRaw : RawLocationForecast :=
  { locationName := "臺北市", weatherElement := [] }

/-- An upstream answering with the element-less location. -/
def noElementsRecords : Records :=
  { datasetDescription := "三十六小時天氣預報", location := [noElementsRaw] }

/-- Constant upstream returning `noElementsRecords`. -/
def fetchNoElements : String → UpstreamResult :=
  fun _ => UpstreamResult.ok noElementsRecords

/-- Witness for C7 at the element-less upstream. -/
theorem empty_elements_propagates_500_witness :
    getWeatherByCity fetchNoElements "台北市" =
      HandlerResult.serverError jsFirstElementError ∧
    resultStatus (getWeatherByCity fetchNoElements "台北市") = 500 :=
  empty_elements_propagates_500 fetchNoElements "台北市" noElementsRecords
    noElementsRaw rfl rfl rfl

/-- C8: on success the handler returns the normalized forecast, whose `city`
equals the matched location's `locationName` and whose `updateTime` equals
the upstream's `records.datasetDescription`. -/
theorem success_echoes_location_fields (fetch : String → UpstreamResult)
    (city : String) (records : Records) (loc : RawLocationForecast)
    (data : NormalizedForecast)
    (hfetch : fetch (substituteCity city) = UpstreamResult.ok records)
    (hloc : records.location.head? = some loc)
    (hnorm : normalizeForecast records.datasetDescription loc =
      Except.ok data) :
    getWeatherByCity fetch city = HandlerResult.success data ∧
    data.city = loc.locationName ∧
    data.updateTime = records.datasetDescription := by
  have hmain : getWeatherByCity fetch city = HandlerResult.success data := by
    simp only [getWeatherByCity, hfetch, hloc, hnorm]
  unfold normalizeForecast at hnorm
  cases hb : buildForecasts loc.weatherElement with
  | error msg =>
    rw [hb] at hnorm
    simp [Except.map] at hnorm
  | ok fs =>
    rw [hb] at hnorm
    simp only [Except.map] at hnorm
    injection hnorm with hdata
    refine ⟨hmain, ?_, ?_⟩ <;> rw [← hdata]

/-- Upstream records for the successful sample request. -/
def sampleRecords : Records :=
  { datasetDescription := "三十六小時天氣預報", location := [sampleRaw] }

/-- Constant upstream returning `sampleRecords`. -/
def fetchSample : String → UpstreamResult :=
  fun _ => UpstreamResult.ok sampleRecords

/-- The normalized record of the sample payload. -/
def samplePeriod : ForecastPeriod :=
  { startTime := "2026-10-11 06:00:00"
    endTime := "2026-10-11 18:00:00"
    weather := "Sunny"
    rain := "10%"
    minTemp := ""
    maxTemp := ""
    comfort := ""
    windSpeed := "" }

/-- The normalized forecast of the sample payload. -/
def sampleNormalized : NormalizedForecast :=
  { city := "臺北市"
    updateTime := "三十六小時天氣預報"
    forecasts := [samplePeriod] }

/-- Witness for C8 at the successful sample upstream. -/
theorem success_echoes_location_fields_witness :
    getWeatherByCity fetchSample "台北市" =
      HandlerResult.success sampleNormalized ∧
    sampleNormalized.city = sampleRaw.locationName ∧
    sampleNormalized.updateTime = sampleRecords.datasetDescription :=
  success_echoes_location_fields fetchSample "台北市" sampleRecords
    sampleRaw sampleNormalized rfl rfl rfl

end CwaWeather
